import Mathlib

/-!
Shallow embedding of `WiFiBase.cpp` (AMPWorks/EspLibraries): the known-network
registry and the connection orchestrator, with the radio link (`WiFi`,
`esp_wifi_disconnect`) and the config portal (`WiFiManager`) modelled as
external collaborators supplying status traces and portal outcomes.
-/

namespace WFB

/-- Registry entry, `struct network`: an `ssid` and a `passwd`, stored via
`strdup` in `addKnownNetwork`. C strings with no embedded NUL are modelled as
Lean strings; `strcmp a b == 0` is string equality. -/
structure Network where
  ssid : String
  passwd : String
  deriving DecidableEq

/-- Modelled from the spec: `INDEX_DISCONNECTED` is defined in `WiFiBase.h`,
which is not among the sources; the spec describes it as "a reserved value
meaning 'disconnected'", returned by `lookupKnownNetwork` on a miss, hence
distinct from every valid registry index. Modelled as -1. -/
def INDEX_DISCONNECTED : Int := -1

/-- Instance state of a `WiFiBase` object: the private fields assigned in the
constructor. `_knownNetworks` (a malloc'd array whose cells beyond
`_numKnownNetworks` are never read) is modelled as the list of its first
`_numKnownNetworks` valid entries, so `_numKnownNetworks` is the list length.
`MAX_KNOWN_NETWORKS` and `DEFAULT_CONNECT_TIMEOUT` live in the missing
`WiFiBase.h` and are threaded as parameters `maxKnown` / `defaultTimeoutMs`. -/
structure WFBState where
  background : Bool
  apSsid : Option String
  apPasswd : Option String
  running : Bool
  accessPointEnabled : Bool
  accessPointActive : Bool
  knownNetworks : List Network
  allocatedKnownNetworks : Nat
  connectionTimeoutMs : Nat
  connectedIndex : Int
  deriving DecidableEq

/-- Loop body of `WiFiBase::lookupKnownNetwork`: scan from position `i`. -/
def lookupAux (ssid : String) : Nat → List Network → Int
  | _, [] => INDEX_DISCONNECTED
  | i, e :: rest => if e.ssid = ssid then (i : Int) else lookupAux ssid (i + 1) rest

/-- `WiFiBase::lookupKnownNetwork`: linear scan in insertion order, first match
wins, `INDEX_DISCONNECTED` on a miss. -/
def lookupKnownNetwork (s : WFBState) (ssid : String) : Int :=
  lookupAux ssid 0 s.knownNetworks

/-- `WiFiBase::hasKnownNetwork`: `lookupKnownNetwork(ssid) != INDEX_DISCONNECTED`. -/
def hasKnownNetwork (s : WFBState) (ssid : String) : Bool :=
  lookupKnownNetwork s ssid != INDEX_DISCONNECTED

/-- `WiFiBase::numKnownNetworks`: the entry count `_numKnownNetworks`. -/
def numKnownNetworks (s : WFBState) : Nat :=
  s.knownNetworks.length

/-- Writing `ssid`/`passwd` into slot `_numKnownNetworks` and incrementing the
count, i.e. the tail of `WiFiBase::addKnownNetwork` after capacity handling. -/
def appendNetwork (s : WFBState) (ssid passwd : String) : WFBState :=
  { s with knownNetworks := s.knownNetworks ++ [⟨ssid, passwd⟩] }

/-- `WiFiBase::addKnownNetwork`. First allocation is 2 slots (and resets
`_numKnownNetworks` to 0); otherwise a re-added known ssid returns true
unchanged; at full capacity the array doubles (`uint16_t newAlloc`, hence the
mod 2^16) after the `MAX_KNOWN_NETWORKS` ceiling check; `memcpy` of the old
entries preserves them in order. -/
def addKnownNetwork (maxKnown : Nat) (s : WFBState) (ssid passwd : String) :
    Bool × WFBState :=
  if s.allocatedKnownNetworks = 0 then
    let s1 := { s with allocatedKnownNetworks := 2, knownNetworks := [] }
    (true, appendNetwork s1 ssid passwd)
  else if hasKnownNetwork s ssid then
    (true, s)
  else if s.knownNetworks.length = s.allocatedKnownNetworks then
    if s.knownNetworks.length ≥ maxKnown then
      (false, s)
    else
      let newAlloc := s.allocatedKnownNetworks * 2 % 65536
      (true, appendNetwork { s with allocatedKnownNetworks := newAlloc } ssid passwd)
  else
    (true, appendNetwork s ssid passwd)

/-- `WiFiBase::WiFiBase(boolean useStored)`: field initialisation, then, when
`useStored` is set and the radio reports a stored ssid (`seeded`), the
sentinel entry is added via `addKnownNetwork("\0", "\0")`, i.e. with empty
strings. -/
def initState (maxKnown defaultTimeoutMs : Nat) (seeded : Bool) : WFBState :=
  let base : WFBState :=
    { background := true
      apSsid := none
      apPasswd := none
      running := false
      accessPointEnabled := false
      accessPointActive := false
      knownNetworks := []
      allocatedKnownNetworks := 0
      connectionTimeoutMs := defaultTimeoutMs
      connectedIndex := INDEX_DISCONNECTED }
  if seeded then (addKnownNetwork maxKnown base "" "").2 else base

/-- `WiFiBase::configBackground`: rejected while `_running`. -/
def configBackground (s : WFBState) (background : Bool) : Bool × WFBState :=
  if s.running then (false, s) else (true, { s with background := background })

/-- `WiFiBase::configureAccessPoint`: rejected while `_accessPointActive`,
otherwise stores the AP credentials and enables AP mode. -/
def configureAccessPoint (s : WFBState) (ssid passwd : String) : Bool × WFBState :=
  if s.accessPointActive then
    (false, s)
  else
    (true, { s with apSsid := some ssid, apPasswd := some passwd,
                    accessPointEnabled := true })

/-- `WiFiBase::_shutdownAccessPoint`: unimplemented, always reports failure. -/
def shutdownAccessPoint (s : WFBState) : Bool × WFBState :=
  (false, s)

/-- Result of `WiFiBase::disableAccessPoint`, instrumented with whether the
`_shutdownAccessPoint` teardown call was made. -/
structure DisableResult where
  ok : Bool
  state : WFBState
  attemptedShutdown : Bool
  deriving DecidableEq

/-- `WiFiBase::disableAccessPoint`: tears down an active access point (failing
if teardown fails), then clears `_accessPointEnabled`. -/
def disableAccessPoint (s : WFBState) : DisableResult :=
  if s.accessPointActive then
    let r := shutdownAccessPoint s
    if !r.1 then ⟨false, r.2, true⟩
    else ⟨true, { r.2 with accessPointEnabled := false }, true⟩
  else ⟨true, { s with accessPointEnabled := false }, false⟩

/-- `WiFiBase::setConnectTimeoutMs`. -/
def setConnectTimeoutMs (s : WFBState) (ms : Nat) : Bool × WFBState :=
  (true, { s with connectionTimeoutMs := ms })

/-- Radio link status as observed by `WiFi.status()`: `WL_CONNECTED`,
`WL_CONNECT_FAILED`, or any other (in-progress) value, which the wait loop
treats uniformly. -/
inductive WlStatus where
  | wlConnected
  | wlConnectFailed
  | wlInProgress
  deriving DecidableEq

/-- Result of `WiFiBase::_connectWait`, instrumented with whether the
timeout branch commanded the radio to abort (`esp_wifi_disconnect()`). -/
structure ConnectWaitResult where
  success : Bool
  abortIssued : Bool
  deriving DecidableEq

/-- Loop of `WiFiBase::_connectWait`, polling from iteration `n`. The `n`-th
status query happens `100 * n` ms after `start` (the loop sleeps `delay(100)`
between queries), so the timeout test `millis() - start > _connectionTimeoutMs`
reads `100 * n > timeoutMs`. -/
def connectWaitFrom (status : Nat → WlStatus) (timeoutMs : Nat) (n : Nat) :
    ConnectWaitResult :=
  if status n = .wlConnected then ⟨true, false⟩
  else if status n = .wlConnectFailed then ⟨false, false⟩
  else if 100 * n > timeoutMs then ⟨false, true⟩
  else connectWaitFrom status timeoutMs (n + 1)
termination_by timeoutMs + 100 - 100 * n
decreasing_by
  rename_i h
  simp only [not_lt] at h
  omega

/-- `WiFiBase::_connectWait`: poll from the start of the attempt. -/
def connectWait (status : Nat → WlStatus) (timeoutMs : Nat) : ConnectWaitResult :=
  connectWaitFrom status timeoutMs 0

/-- External radio collaborator: whether `WiFi.status()` reports
`WL_CONNECTED` at the entry of `_connectToNetwork`, and, for each connect
request (`WiFi.begin()` with no arguments modelled as `none`,
`WiFi.begin(ssid, passwd)` as `some (ssid, passwd)`), the status trace the
subsequent `_connectWait` polls observe. -/
structure RadioLink where
  initialConnected : Bool
  statusTrace : Option (String × String) → Nat → WlStatus

/-- One connect request plus its `_connectWait`: true iff the wait reports
success. -/
def attemptOnce (radio : RadioLink) (timeoutMs : Nat)
    (d : Option (String × String)) : Bool :=
  (connectWait (radio.statusTrace d) timeoutMs).success

/-- The `WiFi.begin(ssid, passwd)` request descriptor for a registry entry. -/
def networkDescriptor (e : Network) : Option (String × String) :=
  some (e.ssid, e.passwd)

/-- The sequence of connect requests `_connectToNetwork` would issue for a
registry, one per entry in insertion order: the stored-credential request for
an empty-ssid entry 0, the literal request for every other entry. -/
def descriptorList : List Network → List (Option (String × String))
  | [] => []
  | e :: rest =>
    (if e.ssid = "" then none else networkDescriptor e) ::
      rest.map networkDescriptor

/-- The `for` loop of `WiFiBase::_connectToNetwork`: attempt each remaining
entry with its literal fields; return the offset of the first success (if
any) together with the list of requests issued. -/
def tryList (radio : RadioLink) (timeoutMs : Nat) :
    List Network → Option Nat × List (Option (String × String))
  | [] => (none, [])
  | e :: rest =>
    if attemptOnce radio timeoutMs (networkDescriptor e) then
      (some 0, [networkDescriptor e])
    else
      let r := tryList radio timeoutMs rest
      (r.1.map (· + 1), networkDescriptor e :: r.2)

/-- `WiFiBase::_setConnected(uint8_t index)`: the `int` index is converted to
`uint8_t`, i.e. reduced mod 2^8, before being stored. -/
def setConnected (s : WFBState) (index : Int) : WFBState :=
  { s with connectedIndex := index % 256 }

/-- `WiFiBase::_setDisconnected`. -/
def setDisconnected (s : WFBState) : WFBState :=
  { s with connectedIndex := INDEX_DISCONNECTED }

/-- `WiFiBase::connected`: `_connectedIndex != INDEX_DISCONNECTED`. -/
def connected (s : WFBState) : Bool :=
  s.connectedIndex != INDEX_DISCONNECTED

/-- Result of `WiFiBase::_connectToNetwork`, instrumented with the list of
connect requests issued to the radio. -/
structure ConnectResult where
  ok : Bool
  state : WFBState
  attempts : List (Option (String × String))
  deriving DecidableEq

/-- `WiFiBase::_connectToNetwork`: early exit when the radio already reports
`WL_CONNECTED`; otherwise, when entries exist, index 0 with an empty ssid
(`_knownNetworks[index].ssid[index] == '\0'` at `index = 0`) is tried via the
stored-credential `WiFi.begin()` and then skipped, and the remaining entries
are iterated in order; exhaustion records the disconnected sentinel. -/
def connectToNetwork (s : WFBState) (radio : RadioLink) : ConnectResult :=
  if radio.initialConnected then ⟨true, s, []⟩
  else
    match s.knownNetworks with
    | [] => ⟨false, setDisconnected s, []⟩
    | e :: rest =>
      if e.ssid = "" then
        if attemptOnce radio s.connectionTimeoutMs none then
          ⟨true, setConnected s 0, [none]⟩
        else
          match tryList radio s.connectionTimeoutMs rest with
          | (some k, atts) => ⟨true, setConnected s ((k : Int) + 1), none :: atts⟩
          | (none, atts) => ⟨false, setDisconnected s, none :: atts⟩
      else
        match tryList radio s.connectionTimeoutMs (e :: rest) with
        | (some k, atts) => ⟨true, setConnected s (k : Int), atts⟩
        | (none, atts) => ⟨false, setDisconnected s, atts⟩

/-- External config-portal collaborator (`WiFiManager`): given the AP
credentials passed to `startConfigPortal`, either fails (`none`) or resolves
with the learned `(getSSID(), getPassword())` pair. -/
structure Portal where
  run : Option String → Option String → Option (String × String)

/-- `WiFiBase::_startupAccessPoint`: run the config portal with `_APSsid` and
`_APPasswd`; on success, look the learned ssid up, add it when unknown (the
return value of `addKnownNetwork` is ignored) taking `_numKnownNetworks - 1`
as its index, and record the connected index. -/
def startupAccessPoint (maxKnown : Nat) (s : WFBState) (portal : Portal) :
    Bool × WFBState :=
  match portal.run s.apSsid s.apPasswd with
  | none => (false, s)
  | some (name, passwd) =>
    let index := lookupKnownNetwork s name
    if index = INDEX_DISCONNECTED then
      let s1 := (addKnownNetwork maxKnown s name passwd).2
      (true, setConnected s1 ((s1.knownNetworks.length : Int) - 1))
    else
      (true, setConnected s index)

/-- Result of `WiFiBase::startup`, instrumented with the connect requests
issued and the AP credentials the config portal was started with (when it
was). -/
structure StartupResult where
  ok : Bool
  state : WFBState
  attempts : List (Option (String × String))
  portalStarted : Option (Option String × Option String)
  deriving DecidableEq

/-- `WiFiBase::startup`: try the known networks; on exhaustion, when AP mode
is enabled, fall back to the config portal. (`_background` only guards a TODO
and `_running` is never assigned.) -/
def startup (maxKnown : Nat) (s : WFBState) (radio : RadioLink)
    (portal : Portal) : StartupResult :=
  let c := connectToNetwork s radio
  if c.ok then ⟨true, c.state, c.attempts, none⟩
  else if c.state.accessPointEnabled then
    let r := startupAccessPoint maxKnown c.state portal
    ⟨r.1, r.2, c.attempts, some (c.state.apSsid, c.state.apPasswd)⟩
  else ⟨false, c.state, c.attempts, none⟩

/-- One public operation on a `WiFiBase` object. -/
inductive Op where
  | opConfigBackground (b : Bool)
  | opConfigureAccessPoint (ssid passwd : String)
  | opDisableAccessPoint
  | opAddKnownNetwork (ssid passwd : String)
  | opSetConnectTimeoutMs (ms : Nat)
  | opStartup (radio : RadioLink) (portal : Portal)

/-- State after one public operation. -/
def applyOp (maxKnown : Nat) (s : WFBState) : Op → WFBState
  | .opConfigBackground b => (configBackground s b).2
  | .opConfigureAccessPoint ssid passwd => (configureAccessPoint s ssid passwd).2
  | .opDisableAccessPoint => (disableAccessPoint s).state
  | .opAddKnownNetwork ssid passwd => (addKnownNetwork maxKnown s ssid passwd).2
  | .opSetConnectTimeoutMs ms => (setConnectTimeoutMs s ms).2
  | .opStartup radio portal => (startup maxKnown s radio portal).state

/-- State after a sequence of public operations. -/
def runOps (maxKnown : Nat) (s : WFBState) : List Op → WFBState
  | [] => s
  | op :: rest => runOps maxKnown (applyOp maxKnown s op) rest

/-- Folding a list of `addKnownNetwork` calls (final state). -/
def addAll (maxKnown : Nat) (s : WFBState) : List (String × String) → WFBState
  | [] => s
  | p :: rest => addAll maxKnown (addKnownNetwork maxKnown s p.1 p.2).2 rest

/-- Folding a list of `addKnownNetwork` calls (per-call return values). -/
def addResults (maxKnown : Nat) (s : WFBState) : List (String × String) → List Bool
  | [] => []
  | p :: rest =>
    (addKnownNetwork maxKnown s p.1 p.2).1 ::
      addResults maxKnown (addKnownNetwork maxKnown s p.1 p.2).2 rest

/-- Reference fold keeping, for each distinct ssid, its first-added entry in
call order: the expected registry contents for a call sequence. -/
def foldPairs (acc : List Network) : List (String × String) → List Network
  | [] => acc
  | p :: rest =>
    if p.1 ∈ acc.map Network.ssid then foldPairs acc rest
    else foldPairs (acc ++ [⟨p.1, p.2⟩]) rest

/-- Registry-storage invariant maintained by `addKnownNetwork`: the entry
count is within the allocation, the allocation is 0 or a doubled power of two
within the `MAX_KNOWN_NETWORKS` ceiling, and ssids are not duplicated. -/
def RegistryInv (maxKnown : Nat) (s : WFBState) : Prop :=
  s.knownNetworks.length ≤ s.allocatedKnownNetworks ∧
  (s.allocatedKnownNetworks = 0 ∨
    ((∃ k, s.allocatedKnownNetworks = 2 ^ (k + 1)) ∧
      s.allocatedKnownNetworks ≤ maxKnown)) ∧
  (s.knownNetworks.map Network.ssid).Nodup

/-- Modelled from the spec: the numeric value of `MAX_KNOWN_NETWORKS` is in
the missing `WiFiBase.h`. The spec pins it only through the growth property
(a hard ceiling met exactly when the entry count reaches it, under the
doubling-from-2 allocator), which holds precisely for the ceilings of the
allocator's shape: a power of two that is at least the initial capacity 2 and
small enough that `uint16_t` doubling cannot wrap. -/
def GoodMax (maxKnown : Nat) : Prop :=
  (∃ j, maxKnown = 2 ^ (j + 1)) ∧ maxKnown ≤ 32768

/-- State with the registry storage fields replaced (all `addKnownNetwork`
outcomes have this shape). -/
def withRegistry (s : WFBState) (kn : List Network) (alloc : Nat) : WFBState :=
  { s with knownNetworks := kn, allocatedKnownNetworks := alloc }

/-- Radio whose every connect request fails at the first status poll. -/
def radioFailAll : RadioLink :=
  ⟨false, fun _ _ => .wlConnectFailed⟩

/-- Radio that already reports an established link at startup entry. -/
def radioPreConnected : RadioLink :=
  ⟨true, fun _ _ => .wlInProgress⟩

/-- Radio that accepts exactly the request for network "B" and rejects every
other request, including the stored-credential request. -/
def radioOnlyB : RadioLink :=
  ⟨false, fun d _ => if d = some ("B", "pb") then .wlConnected else .wlConnectFailed⟩

/-- Config portal that always fails. -/
def portalNone : Portal :=
  ⟨fun _ _ => none⟩

/-- Config portal that resolves with the credential ("NewNet", "secret1"). -/
def portalNewNet : Portal :=
  ⟨fun _ _ => some ("NewNet", "secret1")⟩

/-- Registry state with three ordinary entries "A", "B", "C". -/
def sABC : WFBState :=
  ⟨true, none, none, false, false, false,
    [⟨"A", "pa"⟩, ⟨"B", "pb"⟩, ⟨"C", "pc"⟩], 4, 500, -1⟩

/-- Registry state whose entry 0 is the stored-credential sentinel, followed
by the ordinary entry "B". -/
def sSentinelB : WFBState :=
  ⟨true, none, none, false, false, false,
    [⟨"", ""⟩, ⟨"B", "pb"⟩], 2, 500, -1⟩

/-- Registry state full at capacity 4 with the access point configured. -/
def sFullAP : WFBState :=
  ⟨true, some "ap", some "appw", false, true, false,
    [⟨"A", "pa"⟩, ⟨"B", "pb"⟩, ⟨"C", "pc"⟩, ⟨"D", "pd"⟩], 4, 500, -1⟩

/-- Registry state holding the single entry "a". -/
def sOneA : WFBState :=
  ⟨true, none, none, false, false, false, [⟨"a", "1"⟩], 2, 500, -1⟩

/-! ### Lookup lemmas -/

theorem lookupAux_mem_iff (name : String) :
    ∀ (l : List Network) (i : Nat),
      (lookupAux name i l ≠ INDEX_DISCONNECTED ↔ name ∈ l.map Network.ssid)
  | [], i => by simp [lookupAux, INDEX_DISCONNECTED]
  | e :: rest, i => by
    by_cases h : e.ssid = name
    · rw [lookupAux, if_pos h]
      simp only [INDEX_DISCONNECTED, List.map_cons, List.mem_cons]
      constructor
      · intro _
        exact Or.inl h.symm
      · intro _
        omega
    · simp only [lookupAux, if_neg h, List.map_cons, List.mem_cons,
        lookupAux_mem_iff name rest (i + 1)]
      constructor
      · exact fun hmem => Or.inr hmem
      · rintro (heq | hmem)
        · exact absurd heq.symm h
        · exact hmem

theorem hasKnownNetwork_iff (s : WFBState) (name : String) :
    hasKnownNetwork s name = true ↔ name ∈ s.knownNetworks.map Network.ssid := by
  simp only [hasKnownNetwork, lookupKnownNetwork, bne_iff_ne]
  exact lookupAux_mem_iff name s.knownNetworks 0

theorem hasKnownNetwork_false_iff (s : WFBState) (name : String) :
    hasKnownNetwork s name = false ↔ name ∉ s.knownNetworks.map Network.ssid := by
  rw [← hasKnownNetwork_iff]
  simp

theorem lookupAux_nodup_get :
    ∀ (l : List Network) (j : Nat) (h : j < l.length) (i : Nat),
      (l.map Network.ssid).Nodup →
      lookupAux (l.get ⟨j, h⟩).ssid i l = (i : Int) + j
  | [], j, h, i => by simp at h
  | e :: rest, 0, h, i => by
    intro _
    simp [lookupAux]
  | e :: rest, j + 1, h, i => by
    intro hnd
    have hh : j < rest.length := by simpa using h
    have hnd' : (e.ssid :: rest.map Network.ssid).Nodup := by simpa using hnd
    have hmem : (rest.get ⟨j, hh⟩).ssid ∈ rest.map Network.ssid :=
      List.mem_map_of_mem Network.ssid (rest.get_mem j hh)
    have hne : e.ssid ≠ (rest.get ⟨j, hh⟩).ssid := by
      intro heq
      exact (List.nodup_cons.mp hnd').1 (heq ▸ hmem)
    have ih := lookupAux_nodup_get rest j hh (i + 1) (List.nodup_cons.mp hnd').2
    show lookupAux (rest.get ⟨j, hh⟩).ssid i (e :: rest) = (i : Int) + (j + 1)
    rw [lookupAux, if_neg hne, ih]
    push_cast
    ring

/-! ### Single-call `addKnownNetwork` lemmas -/

theorem registryInv_mk {maxKnown : Nat} {s : WFBState}
    (h1 : s.knownNetworks.length ≤ s.allocatedKnownNetworks)
    (h2 : s.allocatedKnownNetworks = 0 ∨
      ((∃ k, s.allocatedKnownNetworks = 2 ^ (k + 1)) ∧
        s.allocatedKnownNetworks ≤ maxKnown))
    (h3 : (s.knownNetworks.map Network.ssid).Nodup) : RegistryInv maxKnown s :=
  ⟨h1, h2, h3⟩

theorem registryInv_alloc_ne_zero {maxKnown : Nat} {s : WFBState} {name : String}
    (hInv : RegistryInv maxKnown s) (h : hasKnownNetwork s name = true) :
    s.allocatedKnownNetworks ≠ 0 := by
  have hmem := (hasKnownNetwork_iff s name).mp h
  have hlen : 0 < s.knownNetworks.length := by
    have h1 : 0 < (s.knownNetworks.map Network.ssid).length :=
      List.length_pos.mpr (List.ne_nil_of_mem hmem)
    simpa using h1
  have := hInv.1
  omega

theorem registryInv_length_le {maxKnown : Nat} {s : WFBState}
    (hInv : RegistryInv maxKnown s) : s.knownNetworks.length ≤ maxKnown := by
  rcases hInv with ⟨h1, h2 | ⟨_, h2⟩, _⟩
  · omega
  · omega

theorem goodMax_two_le {maxKnown : Nat} (hm : GoodMax maxKnown) : 2 ≤ maxKnown := by
  rcases hm with ⟨⟨j, rfl⟩, _⟩
  calc 2 = 2 ^ 1 := by norm_num
  _ ≤ 2 ^ (j + 1) := Nat.pow_le_pow_right (by norm_num) (by omega)

theorem addKnownNetwork_dup (maxKnown : Nat) (s : WFBState) (name pw : String)
    (hInv : RegistryInv maxKnown s) (h : hasKnownNetwork s name = true) :
    addKnownNetwork maxKnown s name pw = (true, s) := by
  rw [addKnownNetwork, if_neg (registryInv_alloc_ne_zero hInv h), if_pos h]

theorem addKnownNetwork_full (maxKnown : Nat) (s : WFBState) (name pw : String)
    (hm : GoodMax maxKnown) (hInv : RegistryInv maxKnown s)
    (h : hasKnownNetwork s name = false)
    (hlen : s.knownNetworks.length = maxKnown) :
    addKnownNetwork maxKnown s name pw = (false, s) := by
  have h2 := goodMax_two_le hm
  have halloc : s.allocatedKnownNetworks ≠ 0 := by
    have := hInv.1
    omega
  have halle : s.allocatedKnownNetworks ≤ maxKnown := by
    rcases hInv.2.1 with h0 | ⟨_, hle⟩
    · exact absurd h0 halloc
    · exact hle
  have heq : s.knownNetworks.length = s.allocatedKnownNetworks := by
    have := hInv.1
    omega
  have hb : ¬(hasKnownNetwork s name = true) := by simp [h]
  rw [addKnownNetwork, if_neg halloc, if_neg hb, if_pos heq,
    if_pos (le_of_eq hlen.symm)]

theorem addKnownNetwork_fresh (maxKnown : Nat) (s : WFBState) (name pw : String)
    (hm : GoodMax maxKnown) (hInv : RegistryInv maxKnown s)
    (h : hasKnownNetwork s name = false)
    (hlt : s.knownNetworks.length < maxKnown) :
    ∃ a, addKnownNetwork maxKnown s name pw =
        (true, withRegistry s (s.knownNetworks ++ [⟨name, pw⟩]) a) ∧
      RegistryInv maxKnown (withRegistry s (s.knownNetworks ++ [⟨name, pw⟩]) a) := by
  have hnotmem : name ∉ s.knownNetworks.map Network.ssid :=
    (hasKnownNetwork_false_iff s name).mp h
  have hnd : ((s.knownNetworks ++ [(⟨name, pw⟩ : Network)]).map Network.ssid).Nodup := by
    simp only [List.map_append, List.map_cons, List.map_nil]
    rw [List.nodup_append]
    refine ⟨hInv.2.2, List.nodup_singleton name, ?_⟩
    intro a ha hb
    simp only [List.mem_singleton] at hb
    exact hnotmem (hb ▸ ha)
  have hb : ¬(hasKnownNetwork s name = true) := by simp [h]
  by_cases halloc : s.allocatedKnownNetworks = 0
  · have hempty : s.knownNetworks = [] := by
      have := hInv.1
      rw [halloc] at this
      exact List.length_eq_zero.mp (by omega)
    refine ⟨2, ?_, ?_⟩
    · rw [addKnownNetwork, if_pos halloc]
      simp [appendNetwork, withRegistry, hempty]
    · refine registryInv_mk ?_ (Or.inr ⟨⟨0, by simp [withRegistry]⟩,
        by simpa [withRegistry] using goodMax_two_le hm⟩) ?_
      · simp [withRegistry, hempty]
      · simp [withRegistry, hempty]
  · rcases hInv.2.1 with h0 | ⟨⟨k, hk⟩, hle⟩
    · exact absurd h0 halloc
    by_cases hfull : s.knownNetworks.length = s.allocatedKnownNetworks
    · have hltm : ¬(s.knownNetworks.length ≥ maxKnown) := by omega
      have halloclt : s.allocatedKnownNetworks < maxKnown := by omega
      rcases hm with ⟨⟨j, hj⟩, hbound⟩
      have hkj : k + 1 < j + 1 := by
        have : (2 : Nat) ^ (k + 1) < 2 ^ (j + 1) := by
          rw [← hk, ← hj]
          exact halloclt
        exact (Nat.pow_lt_pow_iff_right (by norm_num)).mp this
      have hdouble : s.allocatedKnownNetworks * 2 = 2 ^ (k + 2) := by
        rw [hk]
        ring
      have hdle : s.allocatedKnownNetworks * 2 ≤ maxKnown := by
        rw [hdouble, hj]
        exact Nat.pow_le_pow_right (by norm_num) (by omega)
      have hmod : s.allocatedKnownNetworks * 2 % 65536 =
          s.allocatedKnownNetworks * 2 :=
        Nat.mod_eq_of_lt (by omega)
      refine ⟨s.allocatedKnownNetworks * 2 % 65536, ?_, ?_⟩
      · rw [addKnownNetwork, if_neg halloc, if_neg hb, if_pos hfull, if_neg hltm]
        simp [appendNetwork, withRegistry]
      · refine registryInv_mk ?_
          (Or.inr ⟨⟨k + 1, by simp only [withRegistry]; rw [hmod, hdouble]⟩,
            by simp only [withRegistry]; omega⟩) ?_
        · have h1 : (1 : Nat) ≤ s.allocatedKnownNetworks := by omega
          simp only [withRegistry, List.length_append, List.length_singleton]
          omega
        · simpa [withRegistry] using hnd
    · have hlt2 : s.knownNetworks.length < s.allocatedKnownNetworks := by
        have := hInv.1
        omega
      refine ⟨s.allocatedKnownNetworks, ?_, ?_⟩
      · rw [addKnownNetwork, if_neg halloc, if_neg hb, if_neg hfull]
        simp [appendNetwork, withRegistry]
      · refine registryInv_mk ?_
          (Or.inr ⟨⟨k, by simpa [withRegistry] using hk⟩,
            by simp only [withRegistry]; omega⟩) ?_
        · simp only [withRegistry, List.length_append, List.length_singleton]
          omega
        · simpa [withRegistry] using hnd

theorem addKnownNetwork_inv (maxKnown : Nat) (s : WFBState) (name pw : String)
    (hm : GoodMax maxKnown) (hInv : RegistryInv maxKnown s) :
    RegistryInv maxKnown (addKnownNetwork maxKnown s name pw).2 := by
  by_cases h : hasKnownNetwork s name = true
  · rw [addKnownNetwork_dup maxKnown s name pw hInv h]
    exact hInv
  · have hf : hasKnownNetwork s name = false := by simpa using h
    rcases lt_or_eq_of_le (registryInv_length_le hInv) with hlt | heq
    · rcases addKnownNetwork_fresh maxKnown s name pw hm hInv hf hlt with
        ⟨a, heq2, hinv2⟩
      rw [heq2]
      exact hinv2
    · rw [addKnownNetwork_full maxKnown s name pw hm hInv hf heq]
      exact hInv

theorem addKnownNetwork_rejects_iff (maxKnown : Nat) (s : WFBState)
    (name pw : String) (hm : GoodMax maxKnown) (hInv : RegistryInv maxKnown s)
    (h : hasKnownNetwork s name = false) :
    (((addKnownNetwork maxKnown s name pw).1 = false) ↔
      s.knownNetworks.length = maxKnown) ∧
    ((addKnownNetwork maxKnown s name pw).1 = false →
      (addKnownNetwork maxKnown s name pw).2 = s) := by
  rcases lt_or_eq_of_le (registryInv_length_le hInv) with hlt | heq
  · rcases addKnownNetwork_fresh maxKnown s name pw hm hInv h hlt with
      ⟨a, heq2, _⟩
    rw [heq2]
    constructor
    · simp only [Prod.fst]
      constructor
      · intro hfalse
        exact absurd hfalse (by simp)
      · intro hlen
        omega
    · intro hfalse
      exact absurd hfalse (by simp)
  · rw [addKnownNetwork_full maxKnown s name pw hm hInv h heq]
    exact ⟨by simp [heq], fun _ => rfl⟩

theorem registryInv_initState (maxKnown t : Nat) :
    RegistryInv maxKnown (initState maxKnown t false) := by
  refine registryInv_mk ?_ (Or.inl ?_) ?_ <;> simp [initState]

theorem hasKnownNetwork_initState_false (maxKnown t : Nat) (name : String) :
    hasKnownNetwork (initState maxKnown t false) name = false := by
  rw [hasKnownNetwork_false_iff]
  simp [initState]

theorem addAll_append (maxKnown : Nat) (s : WFBState)
    (l1 l2 : List (String × String)) :
    addAll maxKnown s (l1 ++ l2) = addAll maxKnown (addAll maxKnown s l1) l2 := by
  induction l1 generalizing s with
  | nil => simp [addAll]
  | cons p rest ih => simp [addAll, ih]

theorem addResults_append (maxKnown : Nat) (s : WFBState)
    (l1 l2 : List (String × String)) :
    addResults maxKnown s (l1 ++ l2) =
      addResults maxKnown s l1 ++ addResults maxKnown (addAll maxKnown s l1) l2 := by
  induction l1 generalizing s with
  | nil => simp [addResults, addAll]
  | cons p rest ih => simp [addResults, addAll, ih]

theorem addAll_fresh (maxKnown : Nat) :
    ∀ (pairs : List (String × String)) (s : WFBState), GoodMax maxKnown →
      RegistryInv maxKnown s →
      (∀ p ∈ pairs, hasKnownNetwork s p.1 = false) →
      (pairs.map Prod.fst).Nodup →
      s.knownNetworks.length + pairs.length ≤ maxKnown →
      addResults maxKnown s pairs = List.replicate pairs.length true ∧
      (addAll maxKnown s pairs).knownNetworks.map Network.ssid =
        s.knownNetworks.map Network.ssid ++ pairs.map Prod.fst ∧
      RegistryInv maxKnown (addAll maxKnown s pairs)
  | [], s => by
    intro hm hInv _ _ _
    exact ⟨by simp [addResults], by simp [addAll], by simpa [addAll] using hInv⟩
  | p :: rest, s => by
    intro hm hInv hfresh hnd hcap
    have hp : hasKnownNetwork s p.1 = false := hfresh p (List.mem_cons_self p rest)
    have hcap' : s.knownNetworks.length + (rest.length + 1) ≤ maxKnown := by
      simpa [List.length_cons] using hcap
    have hlt : s.knownNetworks.length < maxKnown := by omega
    rcases addKnownNetwork_fresh maxKnown s p.1 p.2 hm hInv hp hlt with
      ⟨a, heq, hinv2⟩
    have hnd' : (p.1 :: rest.map Prod.fst).Nodup := by simpa using hnd
    have hmap1 : (withRegistry s (s.knownNetworks ++ [(⟨p.1, p.2⟩ : Network)]) a
        ).knownNetworks.map Network.ssid =
        s.knownNetworks.map Network.ssid ++ [p.1] := by
      simp [withRegistry]
    have hfresh2 : ∀ q ∈ rest,
        hasKnownNetwork
          (withRegistry s (s.knownNetworks ++ [(⟨p.1, p.2⟩ : Network)]) a) q.1 =
          false := by
      intro q hq
      rw [hasKnownNetwork_false_iff, hmap1]
      have h1 : q.1 ∉ s.knownNetworks.map Network.ssid :=
        (hasKnownNetwork_false_iff s q.1).mp
          (hfresh q (List.mem_cons_of_mem p hq))
      have h2 : q.1 ≠ p.1 := by
        intro hqp
        exact (List.nodup_cons.mp hnd').1
          (hqp ▸ List.mem_map_of_mem Prod.fst hq)
      simp only [List.mem_append, List.mem_singleton]
      rintro (hmem | hmem)
      · exact h1 hmem
      · exact h2 hmem
    have hcap2 : (withRegistry s (s.knownNetworks ++ [(⟨p.1, p.2⟩ : Network)]) a
        ).knownNetworks.length + rest.length ≤ maxKnown := by
      simp only [withRegistry, List.length_append, List.length_singleton]
      omega
    have ih := addAll_fresh maxKnown rest
      (withRegistry s (s.knownNetworks ++ [(⟨p.1, p.2⟩ : Network)]) a)
      hm hinv2 hfresh2 (List.nodup_cons.mp hnd').2 hcap2
    refine ⟨?_, ?_, ?_⟩
    · rw [addResults, heq]
      simp only [List.length_cons, List.replicate_succ]
      exact congrArg (List.cons true) ih.1
    · rw [addAll, heq]
      rw [ih.2.1, hmap1]
      simp
    · rw [addAll, heq]
      exact ih.2.2

/-- C1: with a name not already present, `addKnownNetwork` fails — returning
false and leaving the state (hence the entry count) unchanged — exactly when
the entry count has reached `MAX_KNOWN_NETWORKS`; adding
`MAX_KNOWN_NETWORKS + 1` distinct names from a fresh object succeeds for the
first `MAX_KNOWN_NETWORKS` calls and returns false, with the count unchanged
at the ceiling, for the next call. -/
theorem addKnownNetwork_max_ceiling (maxKnown t : Nat) (hm : GoodMax maxKnown) :
    (∀ (s : WFBState) (name pw : String), RegistryInv maxKnown s →
        hasKnownNetwork s name = false →
        (((addKnownNetwork maxKnown s name pw).1 = false) ↔
          numKnownNetworks s = maxKnown) ∧
        ((addKnownNetwork maxKnown s name pw).1 = false →
          (addKnownNetwork maxKnown s name pw).2 = s)) ∧
    (∀ pairs : List (String × String), (pairs.map Prod.fst).Nodup →
        pairs.length = maxKnown + 1 →
        addResults maxKnown (initState maxKnown t false) pairs =
          List.replicate maxKnown true ++ [false] ∧
        numKnownNetworks (addAll maxKnown (initState maxKnown t false) pairs) =
          maxKnown) := by
  constructor
  · intro s name pw hInv h
    exact addKnownNetwork_rejects_iff maxKnown s name pw hm hInv h
  · intro pairs hnd hlen
    have hsplit : pairs.take maxKnown ++ pairs.drop maxKnown = pairs :=
      List.take_append_drop maxKnown pairs
    have hl1 : (pairs.take maxKnown).length = maxKnown := by
      rw [List.length_take, hlen]
      omega
    have hq2 : (pairs.drop maxKnown).length = 1 := by
      rw [List.length_drop, hlen]
      omega
    rcases List.length_eq_one.mp hq2 with ⟨q, hq⟩
    have hnd1 : ((pairs.take maxKnown).map Prod.fst).Nodup := by
      rw [List.map_take]
      exact (List.take_sublist maxKnown (pairs.map Prod.fst)).nodup hnd
    have hfresh : ∀ p ∈ pairs.take maxKnown,
        hasKnownNetwork (initState maxKnown t false) p.1 = false :=
      fun p _ => hasKnownNetwork_initState_false maxKnown t p.1
    have hcap : (initState maxKnown t false).knownNetworks.length +
        (pairs.take maxKnown).length ≤ maxKnown := by
      simp [initState, hl1]
    have main := addAll_fresh maxKnown (pairs.take maxKnown)
      (initState maxKnown t false) hm (registryInv_initState maxKnown t)
      hfresh hnd1 hcap
    have hmap1 : (addAll maxKnown (initState maxKnown t false)
        (pairs.take maxKnown)).knownNetworks.map Network.ssid =
        (pairs.take maxKnown).map Prod.fst := by
      rw [main.2.1]
      simp [initState]
    have hlen1 : (addAll maxKnown (initState maxKnown t false)
        (pairs.take maxKnown)).knownNetworks.length = maxKnown := by
      have hlm := congrArg List.length hmap1
      simp only [List.length_map] at hlm
      rw [hlm, hl1]
    have hmapsplit : (pairs.map Prod.fst) =
        (pairs.take maxKnown).map Prod.fst ++ [q.1] := by
      conv_lhs => rw [← hsplit]
      rw [List.map_append, hq]
      simp
    have hqfresh : hasKnownNetwork (addAll maxKnown (initState maxKnown t false)
        (pairs.take maxKnown)) q.1 = false := by
      rw [hasKnownNetwork_false_iff, hmap1]
      intro hmem
      have hnd2 : ((pairs.take maxKnown).map Prod.fst ++ [q.1]).Nodup := by
        rw [← hmapsplit]
        exact hnd
      exact (List.nodup_append.mp hnd2).2.2 hmem (List.mem_singleton.mpr rfl)
    have hfullq := addKnownNetwork_full maxKnown
      (addAll maxKnown (initState maxKnown t false) (pairs.take maxKnown))
      q.1 q.2 hm main.2.2 hqfresh hlen1
    constructor
    · conv_lhs => rw [← hsplit]
      rw [addResults_append, main.1, hq, hl1]
      simp [addResults, hfullq]
    · conv_lhs => rw [← hsplit]
      rw [addAll_append, hq]
      simp only [addAll, hfullq]
      exact hlen1

/-- Closed instance of `addKnownNetwork_max_ceiling` at
`MAX_KNOWN_NETWORKS = 2`: three distinct adds from a fresh object give
true, true, false, and the final count is 2. -/
theorem addKnownNetwork_max_ceiling_witness :
    addResults 2 (initState 2 500 false) [("a", "pa"), ("b", "pb"), ("c", "pc")] =
      List.replicate 2 true ++ [false] ∧
    numKnownNetworks (addAll 2 (initState 2 500 false)
      [("a", "pa"), ("b", "pb"), ("c", "pc")]) = 2 :=
  (addKnownNetwork_max_ceiling 2 500 ⟨⟨0, rfl⟩, by norm_num⟩).2
    [("a", "pa"), ("b", "pb"), ("c", "pc")] (by decide) rfl

theorem foldPairs_length_mono :
    ∀ (pairs : List (String × String)) (acc : List Network),
      acc.length ≤ (foldPairs acc pairs).length
  | [], acc => by simp [foldPairs]
  | p :: rest, acc => by
    rw [foldPairs]
    by_cases h : p.1 ∈ acc.map Network.ssid
    · rw [if_pos h]
      exact foldPairs_length_mono rest acc
    · rw [if_neg h]
      calc acc.length ≤ (acc ++ [(⟨p.1, p.2⟩ : Network)]).length := by simp
      _ ≤ (foldPairs (acc ++ [(⟨p.1, p.2⟩ : Network)]) rest).length :=
        foldPairs_length_mono rest _

theorem foldPairs_nodup :
    ∀ (pairs : List (String × String)) (acc : List Network),
      (acc.map Network.ssid).Nodup →
      ((foldPairs acc pairs).map Network.ssid).Nodup
  | [], acc => by
    intro hnd
    simpa [foldPairs] using hnd
  | p :: rest, acc => by
    intro hnd
    rw [foldPairs]
    by_cases h : p.1 ∈ acc.map Network.ssid
    · rw [if_pos h]
      exact foldPairs_nodup rest acc hnd
    · rw [if_neg h]
      refine foldPairs_nodup rest _ ?_
      simp only [List.map_append, List.map_cons, List.map_nil]
      rw [List.nodup_append]
      refine ⟨hnd, List.nodup_singleton p.1, ?_⟩
      intro x hx hb
      simp only [List.mem_singleton] at hb
      exact h (hb ▸ hx)

theorem addAll_foldPairs (maxKnown : Nat) :
    ∀ (pairs : List (String × String)) (s : WFBState), GoodMax maxKnown →
      RegistryInv maxKnown s →
      (foldPairs s.knownNetworks pairs).length ≤ maxKnown →
      (addAll maxKnown s pairs).knownNetworks = foldPairs s.knownNetworks pairs ∧
      RegistryInv maxKnown (addAll maxKnown s pairs)
  | [], s => by
    intro hm hInv hcap
    exact ⟨by simp [addAll, foldPairs], by simpa [addAll] using hInv⟩
  | p :: rest, s => by
    intro hm hInv hcap
    by_cases hmem : p.1 ∈ s.knownNetworks.map Network.ssid
    · have hdup := addKnownNetwork_dup maxKnown s p.1 p.2 hInv
        ((hasKnownNetwork_iff s p.1).mpr hmem)
      have hfold : foldPairs s.knownNetworks (p :: rest) =
          foldPairs s.knownNetworks rest := by
        rw [foldPairs, if_pos hmem]
      rw [addAll, hdup, hfold]
      exact addAll_foldPairs maxKnown rest s hm hInv (by rw [← hfold]; exact hcap)
    · have hfalse := (hasKnownNetwork_false_iff s p.1).mpr hmem
      have hfold : foldPairs s.knownNetworks (p :: rest) =
          foldPairs (s.knownNetworks ++ [(⟨p.1, p.2⟩ : Network)]) rest := by
        rw [foldPairs, if_neg hmem]
      have hcap' : (foldPairs (s.knownNetworks ++ [(⟨p.1, p.2⟩ : Network)])
          rest).length ≤ maxKnown := by
        rw [← hfold]
        exact hcap
      have hlt : s.knownNetworks.length < maxKnown := by
        have h1 := foldPairs_length_mono rest
          (s.knownNetworks ++ [(⟨p.1, p.2⟩ : Network)])
        simp only [List.length_append, List.length_singleton] at h1
        omega
      rcases addKnownNetwork_fresh maxKnown s p.1 p.2 hm hInv hfalse hlt with
        ⟨a, heq, hinv2⟩
      have hkn : (withRegistry s (s.knownNetworks ++ [(⟨p.1, p.2⟩ : Network)]) a
          ).knownNetworks = s.knownNetworks ++ [(⟨p.1, p.2⟩ : Network)] := rfl
      have ih := addAll_foldPairs maxKnown rest
        (withRegistry s (s.knownNetworks ++ [(⟨p.1, p.2⟩ : Network)]) a)
        hm hinv2 (by rw [hkn]; exact hcap')
      rw [addAll, heq, hfold]
      rw [hkn] at ih
      exact ih

/-- C3: for a sequence of `addKnownNetwork` calls whose distinct-name count
stays within `MAX_KNOWN_NETWORKS`, the registry holds exactly the
first-occurrence entries in call order (so growth by doubling preserved all
entries and their order), `numKnownNetworks` is the distinct-name count, and
`lookupKnownNetwork` returns each distinct name's original insertion
index. -/
theorem addAll_distinct_names_lookup (maxKnown t : Nat) (hm : GoodMax maxKnown)
    (pairs : List (String × String))
    (hcap : (foldPairs [] pairs).length ≤ maxKnown) :
    (addAll maxKnown (initState maxKnown t false) pairs).knownNetworks =
      foldPairs [] pairs ∧
    numKnownNetworks (addAll maxKnown (initState maxKnown t false) pairs) =
      (foldPairs [] pairs).length ∧
    ∀ (j : Nat) (h : j < (foldPairs [] pairs).length),
      lookupKnownNetwork (addAll maxKnown (initState maxKnown t false) pairs)
        (((foldPairs [] pairs).get ⟨j, h⟩).ssid) = (j : Int) := by
  have h0 : (initState maxKnown t false).knownNetworks = [] := by
    simp [initState]
  have main := addAll_foldPairs maxKnown pairs (initState maxKnown t false) hm
    (registryInv_initState maxKnown t) (by rw [h0]; exact hcap)
  have hkn : (addAll maxKnown (initState maxKnown t false) pairs).knownNetworks =
      foldPairs [] pairs := by
    rw [main.1, h0]
  refine ⟨hkn, by rw [numKnownNetworks, hkn], ?_⟩
  intro j h
  have hnd : ((foldPairs [] pairs).map Network.ssid).Nodup :=
    foldPairs_nodup pairs [] (by simp)
  show lookupAux (((foldPairs [] pairs).get ⟨j, h⟩).ssid) 0
    (addAll maxKnown (initState maxKnown t false) pairs).knownNetworks = (j : Int)
  rw [hkn]
  simpa using lookupAux_nodup_get (foldPairs [] pairs) j h 0 hnd

/-- Closed instance of `addAll_distinct_names_lookup`: the call sequence
add("a"), add("b"), add("a") again, add("c") yields 3 entries, and "b" (the
second distinct name) is found at index 1. -/
theorem addAll_distinct_names_lookup_witness :
    (foldPairs [] [("a", "1"), ("b", "2"), ("a", "3"), ("c", "4")]).length ≤ 4 ∧
    numKnownNetworks (addAll 4 (initState 4 500 false)
      [("a", "1"), ("b", "2"), ("a", "3"), ("c", "4")]) =
      (foldPairs [] [("a", "1"), ("b", "2"), ("a", "3"), ("c", "4")]).length ∧
    lookupKnownNetwork (addAll 4 (initState 4 500 false)
      [("a", "1"), ("b", "2"), ("a", "3"), ("c", "4")]) "b" = 1 :=
  ⟨by decide,
    (addAll_distinct_names_lookup 4 500 ⟨⟨1, rfl⟩, by norm_num⟩
      [("a", "1"), ("b", "2"), ("a", "3"), ("c", "4")] (by decide)).2.1,
    (addAll_distinct_names_lookup 4 500 ⟨⟨1, rfl⟩, by norm_num⟩
      [("a", "1"), ("b", "2"), ("a", "3"), ("c", "4")] (by decide)).2.2 1
      (by decide)⟩

/-- C9: re-adding a name already present returns true and leaves the whole
state — in particular the entry count and every stored entry — unchanged. -/
theorem addKnownNetwork_readd_noop (maxKnown : Nat) (s : WFBState)
    (name pw : String) (hInv : RegistryInv maxKnown s)
    (h : hasKnownNetwork s name = true) :
    addKnownNetwork maxKnown s name pw = (true, s) ∧
    numKnownNetworks (addKnownNetwork maxKnown s name pw).2 =
      numKnownNetworks s ∧
    (addKnownNetwork maxKnown s name pw).2.knownNetworks = s.knownNetworks := by
  have hdup := addKnownNetwork_dup maxKnown s name pw hInv h
  exact ⟨hdup, by rw [hdup], by rw [hdup]⟩

/-- Closed instance of `addKnownNetwork_readd_noop`: re-adding "a" to a
registry holding exactly "a" changes nothing and reports success. -/
theorem addKnownNetwork_readd_noop_witness :
    addKnownNetwork 4 sOneA "a" "zz" = (true, sOneA) ∧
    numKnownNetworks (addKnownNetwork 4 sOneA "a" "zz").2 =
      numKnownNetworks sOneA ∧
    (addKnownNetwork 4 sOneA "a" "zz").2.knownNetworks = sOneA.knownNetworks :=
  addKnownNetwork_readd_noop 4 sOneA "a" "zz"
    (registryInv_mk (by decide) (Or.inr ⟨⟨0, rfl⟩, by decide⟩) (by decide))
    (by decide)

/-! ### Field-preservation lemmas for the state-machine flags -/

theorem addKnownNetwork_active (maxKnown : Nat) (s : WFBState) (name pw : String) :
    (addKnownNetwork maxKnown s name pw).2.accessPointActive =
      s.accessPointActive := by
  rw [addKnownNetwork]
  split_ifs <;> simp [appendNetwork]

theorem addKnownNetwork_running (maxKnown : Nat) (s : WFBState) (name pw : String) :
    (addKnownNetwork maxKnown s name pw).2.running = s.running := by
  rw [addKnownNetwork]
  split_ifs <;> simp [appendNetwork]

theorem configBackground_preserved (s : WFBState) (b : Bool) :
    (configBackground s b).2.accessPointActive = s.accessPointActive ∧
    (configBackground s b).2.running = s.running := by
  rw [configBackground]
  split_ifs <;> exact ⟨rfl, rfl⟩

theorem configureAccessPoint_preserved (s : WFBState) (ssid passwd : String) :
    (configureAccessPoint s ssid passwd).2.accessPointActive =
      s.accessPointActive ∧
    (configureAccessPoint s ssid passwd).2.running = s.running := by
  rw [configureAccessPoint]
  split_ifs <;> exact ⟨rfl, rfl⟩

theorem disableAccessPoint_preserved (s : WFBState) :
    (disableAccessPoint s).state.accessPointActive = s.accessPointActive ∧
    (disableAccessPoint s).state.running = s.running := by
  rw [disableAccessPoint]
  split_ifs <;> simp [shutdownAccessPoint]

theorem setConnectTimeoutMs_preserved (s : WFBState) (ms : Nat) :
    (setConnectTimeoutMs s ms).2.accessPointActive = s.accessPointActive ∧
    (setConnectTimeoutMs s ms).2.running = s.running :=
  ⟨rfl, rfl⟩

theorem connectToNetwork_preserved (s : WFBState) (radio : RadioLink) :
    (connectToNetwork s radio).state.accessPointActive = s.accessPointActive ∧
    (connectToNetwork s radio).state.running = s.running := by
  rw [connectToNetwork]
  split
  · exact ⟨rfl, rfl⟩
  · split
    · exact ⟨rfl, rfl⟩
    · split
      · split
        · exact ⟨rfl, rfl⟩
        · split <;> exact ⟨rfl, rfl⟩
      · split <;> exact ⟨rfl, rfl⟩

theorem startupAccessPoint_preserved (maxKnown : Nat) (s : WFBState)
    (portal : Portal) :
    (startupAccessPoint maxKnown s portal).2.accessPointActive =
      s.accessPointActive ∧
    (startupAccessPoint maxKnown s portal).2.running = s.running := by
  rw [startupAccessPoint]
  split
  · exact ⟨rfl, rfl⟩
  · dsimp only
    split_ifs
    · exact ⟨by simp [setConnected, addKnownNetwork_active],
        by simp [setConnected, addKnownNetwork_running]⟩
    · exact ⟨rfl, rfl⟩

theorem startup_preserved (maxKnown : Nat) (s : WFBState) (radio : RadioLink)
    (portal : Portal) :
    (startup maxKnown s radio portal).state.accessPointActive =
      s.accessPointActive ∧
    (startup maxKnown s radio portal).state.running = s.running := by
  have hc := connectToNetwork_preserved s radio
  have hs := startupAccessPoint_preserved maxKnown
    (connectToNetwork s radio).state portal
  simp only [startup]
  split_ifs
  · exact hc
  · exact ⟨hs.1.trans hc.1, hs.2.trans hc.2⟩
  · exact hc

theorem applyOp_preserved (maxKnown : Nat) (s : WFBState) (op : Op) :
    (applyOp maxKnown s op).accessPointActive = s.accessPointActive ∧
    (applyOp maxKnown s op).running = s.running := by
  cases op with
  | opConfigBackground b => exact configBackground_preserved s b
  | opConfigureAccessPoint ssid passwd =>
    exact configureAccessPoint_preserved s ssid passwd
  | opDisableAccessPoint => exact disableAccessPoint_preserved s
  | opAddKnownNetwork ssid passwd =>
    exact ⟨addKnownNetwork_active maxKnown s ssid passwd,
      addKnownNetwork_running maxKnown s ssid passwd⟩
  | opSetConnectTimeoutMs ms => exact setConnectTimeoutMs_preserved s ms
  | opStartup radio portal => exact startup_preserved maxKnown s radio portal

theorem runOps_preserved (maxKnown : Nat) :
    ∀ (ops : List Op) (s : WFBState),
      (runOps maxKnown s ops).accessPointActive = s.accessPointActive ∧
      (runOps maxKnown s ops).running = s.running
  | [], s => ⟨rfl, rfl⟩
  | op :: rest, s => by
    have h1 := applyOp_preserved maxKnown s op
    have h2 := runOps_preserved maxKnown rest (applyOp maxKnown s op)
    exact ⟨h2.1.trans h1.1, h2.2.trans h1.2⟩

theorem initState_flags (maxKnown t : Nat) (seeded : Bool) :
    (initState maxKnown t seeded).accessPointActive = false ∧
    (initState maxKnown t seeded).running = false := by
  cases seeded <;> simp [initState, addKnownNetwork, appendNetwork]

/-- C10: in every reachable state the access-point-active flag is false — no
operation, including starting the config portal, ever sets it — so
`configureAccessPoint` and `disableAccessPoint` always return true, and
`disableAccessPoint` never attempts access-point teardown. -/
theorem accessPointActive_never_set (maxKnown t : Nat) (seeded : Bool)
    (ops : List Op) :
    (runOps maxKnown (initState maxKnown t seeded) ops).accessPointActive =
      false ∧
    (∀ ssid passwd : String,
      (configureAccessPoint (runOps maxKnown (initState maxKnown t seeded) ops)
        ssid passwd).1 = true) ∧
    (disableAccessPoint
      (runOps maxKnown (initState maxKnown t seeded) ops)).ok = true ∧
    (disableAccessPoint
      (runOps maxKnown (initState maxKnown t seeded) ops)).attemptedShutdown =
      false := by
  have hact : (runOps maxKnown (initState maxKnown t seeded) ops
      ).accessPointActive = false :=
    (runOps_preserved maxKnown ops (initState maxKnown t seeded)).1.trans
      (initState_flags maxKnown t seeded).1
  refine ⟨hact, ?_, ?_, ?_⟩
  · intro ssid passwd
    rw [configureAccessPoint, if_neg (by simp [hact])]
  · rw [disableAccessPoint, if_neg (by simp [hact])]
  · rw [disableAccessPoint, if_neg (by simp [hact])]

/-- C8 (code bug): `_running` is initialised to false and never assigned
anywhere — `startup` only checks `_background` in a TODO — so after any
operation sequence, in particular after `startup()` has been invoked,
`configBackground` still returns true and still changes the background
setting, instead of being rejected. -/
theorem configBackground_after_startup_not_rejected :
    (∀ (maxKnown t : Nat) (seeded : Bool) (ops : List Op),
      (runOps maxKnown (initState maxKnown t seeded) ops).running = false) ∧
    (configBackground
      (startup 4 (initState 4 500 false) radioFailAll portalNone).state
      false).1 = true ∧
    (configBackground
      (startup 4 (initState 4 500 false) radioFailAll portalNone).state
      false).2.background = false := by
  refine ⟨?_, ?_, ?_⟩
  · intro maxKnown t seeded ops
    exact (runOps_preserved maxKnown ops (initState maxKnown t seeded)).2.trans
      (initState_flags maxKnown t seeded).2
  · decide
  · decide

/-! ### Connection-iteration lemmas -/

theorem setConnected_connected (s : WFBState) (i : Int) :
    connected (setConnected s i) = true := by
  have h0 : (0 : Int) ≤ i % 256 := Int.emod_nonneg i (by norm_num)
  simp only [connected, setConnected, bne_iff_ne, ne_eq, INDEX_DISCONNECTED,
    decide_eq_true_eq]
  omega

theorem setConnected_small (s : WFBState) (i : Int) (h0 : 0 ≤ i) (h : i < 256) :
    (setConnected s i).connectedIndex = i := by
  simp only [setConnected]
  exact Int.emod_eq_of_lt h0 h

theorem tryList_first_success (radio : RadioLink) (t : Nat) :
    ∀ (l : List Network) (d1 : List (Option (String × String)))
      (d : Option (String × String)) (d2 : List (Option (String × String))),
      l.map networkDescriptor = d1 ++ d :: d2 →
      (∀ x ∈ d1, attemptOnce radio t x = false) →
      attemptOnce radio t d = true →
      tryList radio t l = (some d1.length, d1 ++ [d])
  | [], d1, d, d2 => by
    intro h _ _
    exfalso
    cases d1 <;> simp at h
  | e :: rest, d1, d, d2 => by
    intro h hfail hsucc
    rw [List.map_cons] at h
    cases d1 with
    | nil =>
      simp only [List.nil_append] at h
      injection h with h1 h2
      rw [tryList, if_pos (h1 ▸ hsucc)]
      simp [h1]
    | cons x d1' =>
      rw [List.cons_append] at h
      injection h with h1 h2
      have hx : attemptOnce radio t (networkDescriptor e) = false :=
        h1 ▸ hfail x (List.mem_cons_self x d1')
      rw [tryList, if_neg (by simp [hx])]
      have ih := tryList_first_success radio t rest d1' d d2 h2
        (fun y hy => hfail y (List.mem_cons_of_mem x hy)) hsucc
      dsimp only
      rw [ih, h1]
      simp

theorem tryList_all_fail (radio : RadioLink) (t : Nat) :
    ∀ l : List Network,
      (∀ x ∈ l.map networkDescriptor, attemptOnce radio t x = false) →
      tryList radio t l = (none, l.map networkDescriptor)
  | [] => by
    intro _
    simp [tryList]
  | e :: rest => by
    intro hfail
    have hx : attemptOnce radio t (networkDescriptor e) = false :=
      hfail _ (by simp)
    rw [tryList, if_neg (by simp [hx])]
    have ih := tryList_all_fail radio t rest (fun y hy => hfail y (by simp [hy]))
    dsimp only
    rw [ih]
    simp

/-- C4: with the radio not already connected, `_connectToNetwork` issues the
per-entry connect requests strictly in insertion order from index 0; the
first entry whose attempt succeeds ends the iteration with result true, its
index recorded as the connected index, and no later entry is attempted. -/
theorem connectToNetwork_first_success_wins (s : WFBState) (radio : RadioLink)
    (d1 : List (Option (String × String))) (d : Option (String × String))
    (d2 : List (Option (String × String)))
    (hrad : radio.initialConnected = false)
    (hdesc : descriptorList s.knownNetworks = d1 ++ d :: d2)
    (hfail : ∀ x ∈ d1, attemptOnce radio s.connectionTimeoutMs x = false)
    (hsucc : attemptOnce radio s.connectionTimeoutMs d = true)
    (hlen : d1.length < 256) :
    (connectToNetwork s radio).ok = true ∧
    (connectToNetwork s radio).attempts = d1 ++ [d] ∧
    (connectToNetwork s radio).state.connectedIndex = (d1.length : Int) ∧
    connected (connectToNetwork s radio).state = true := by
  have hres : connectToNetwork s radio =
      ⟨true, setConnected s (d1.length : Int), d1 ++ [d]⟩ := by
    rw [connectToNetwork, if_neg (by simp [hrad])]
    cases hkn : s.knownNetworks with
    | nil =>
      rw [hkn, descriptorList] at hdesc
      exfalso
      cases d1 <;> simp at hdesc
    | cons e rest =>
      rw [hkn, descriptorList] at hdesc
      by_cases hss : e.ssid = ""
      · rw [if_pos hss] at hdesc
        dsimp only
        rw [if_pos hss]
        cases d1 with
        | nil =>
          simp only [List.nil_append] at hdesc
          injection hdesc with h1 h2
          rw [if_pos (h1 ▸ hsucc)]
          simp [h1]
        | cons x d1' =>
          rw [List.cons_append] at hdesc
          injection hdesc with h1 h2
          have hx : attemptOnce radio s.connectionTimeoutMs none = false :=
            h1 ▸ hfail x (List.mem_cons_self x d1')
          rw [if_neg (by simp [hx])]
          rw [tryList_first_success radio s.connectionTimeoutMs rest d1' d d2 h2
            (fun y hy => hfail y (List.mem_cons_of_mem x hy)) hsucc]
          dsimp only
          rw [← h1]
          refine congrArg (fun i => (⟨true, setConnected s i,
            none :: (d1' ++ [d])⟩ : ConnectResult)) ?_
          simp only [List.length_cons]
          push_cast
          ring
      · rw [if_neg hss] at hdesc
        dsimp only
        rw [if_neg hss]
        rw [tryList_first_success radio s.connectionTimeoutMs (e :: rest) d1 d d2
          (by rw [List.map_cons]; exact hdesc) hfail hsucc]
  have hok : (connectToNetwork s radio).ok = true := by rw [hres]
  have hatt : (connectToNetwork s radio).attempts = d1 ++ [d] := by rw [hres]
  have hidx : (connectToNetwork s radio).state.connectedIndex =
      (d1.length : Int) := by
    rw [hres]
    exact setConnected_small s (d1.length : Int) (Int.natCast_nonneg d1.length)
      (by exact_mod_cast hlen)
  have hconn : connected (connectToNetwork s radio).state = true := by
    rw [hres]
    exact setConnected_connected s (d1.length : Int)
  exact ⟨hok, hatt, hidx, hconn⟩

/-- Closed instance of `connectToNetwork_first_success_wins`: with known
networks A, B, C and a radio accepting only B, the code attempts A then B,
never attempts C, reports success, and the connected index is 1. -/
theorem connectToNetwork_first_success_wins_witness :
    (connectToNetwork sABC radioOnlyB).ok = true ∧
    (connectToNetwork sABC radioOnlyB).attempts =
      [some ("A", "pa")] ++ [some ("B", "pb")] ∧
    (connectToNetwork sABC radioOnlyB).state.connectedIndex = 1 ∧
    connected (connectToNetwork sABC radioOnlyB).state = true := by
  have h := connectToNetwork_first_success_wins sABC radioOnlyB
    [some ("A", "pa")] (some ("B", "pb")) [some ("C", "pc")]
    rfl (by decide)
    (by
      intro x hx
      simp only [List.mem_singleton] at hx
      subst hx
      simp [attemptOnce, connectWait, connectWaitFrom, radioOnlyB, sABC])
    (by simp [attemptOnce, connectWait, connectWaitFrom, radioOnlyB, sABC])
    (by decide)
  exact ⟨h.1, h.2.1, h.2.2.1, h.2.2.2⟩

/-- C5: when entry 0's name is the empty-string sentinel (and the radio is
not already connected), the first connect request is the stored-credential
`WiFi.begin()` with no arguments; if it succeeds the connected index is 0,
and if it fails iteration advances past index 0, attempting the remaining
entries with their literal name/secret fields. -/
theorem connectToNetwork_sentinel_entry (s : WFBState) (radio : RadioLink)
    (e : Network) (rest : List Network)
    (hrad : radio.initialConnected = false)
    (hkn : s.knownNetworks = e :: rest)
    (hss : e.ssid = "") :
    (connectToNetwork s radio).attempts.head? = some none ∧
    (attemptOnce radio s.connectionTimeoutMs none = true →
      (connectToNetwork s radio).ok = true ∧
      (connectToNetwork s radio).state.connectedIndex = 0 ∧
      (connectToNetwork s radio).attempts = [none]) ∧
    (∀ (d1 : List (Option (String × String))) (d : Option (String × String))
        (d2 : List (Option (String × String))),
      attemptOnce radio s.connectionTimeoutMs none = false →
      rest.map networkDescriptor = d1 ++ d :: d2 →
      (∀ x ∈ d1, attemptOnce radio s.connectionTimeoutMs x = false) →
      attemptOnce radio s.connectionTimeoutMs d = true →
      d1.length + 1 < 256 →
      (connectToNetwork s radio).ok = true ∧
      (connectToNetwork s radio).state.connectedIndex = (d1.length : Int) + 1 ∧
      (connectToNetwork s radio).attempts = none :: (d1 ++ [d])) ∧
    (attemptOnce radio s.connectionTimeoutMs none = false →
      (∀ x ∈ rest.map networkDescriptor,
        attemptOnce radio s.connectionTimeoutMs x = false) →
      (connectToNetwork s radio).ok = false ∧
      (connectToNetwork s radio).attempts = none :: rest.map networkDescriptor) := by
  have hbody : connectToNetwork s radio =
      (if attemptOnce radio s.connectionTimeoutMs none then
        ⟨true, setConnected s 0, [none]⟩
      else
        match tryList radio s.connectionTimeoutMs rest with
        | (some k, atts) => ⟨true, setConnected s ((k : Int) + 1), none :: atts⟩
        | (none, atts) => ⟨false, setDisconnected s, none :: atts⟩) := by
    rw [connectToNetwork, if_neg (by simp [hrad]), hkn]
    dsimp only
    rw [if_pos hss]
  refine ⟨?_, ?_, ?_, ?_⟩
  · rw [hbody]
    by_cases hstored : attemptOnce radio s.connectionTimeoutMs none = true
    · rw [if_pos hstored]
      rfl
    · rw [if_neg hstored]
      rcases htl : tryList radio s.connectionTimeoutMs rest with ⟨r1, atts⟩
      cases r1 <;> simp
  · intro hstored
    rw [hbody, if_pos hstored]
    refine ⟨rfl, ?_, rfl⟩
    exact setConnected_small s 0 (by norm_num) (by norm_num)
  · intro d1 d d2 hstored hdesc hfail hsucc hlen
    rw [hbody, if_neg (by simp [hstored]),
      tryList_first_success radio s.connectionTimeoutMs rest d1 d d2 hdesc
        hfail hsucc]
    refine ⟨rfl, ?_, rfl⟩
    exact setConnected_small s ((d1.length : Int) + 1)
      (by positivity) (by exact_mod_cast hlen)
  · intro hstored hallfail
    rw [hbody, if_neg (by simp [hstored]),
      tryList_all_fail radio s.connectionTimeoutMs rest hallfail]
    exact ⟨rfl, rfl⟩

/-- Closed instance of `connectToNetwork_sentinel_entry`: entry 0 is the
sentinel, the stored-credential request fails, and the literal request for
entry 1 ("B") succeeds: the attempts are the stored request then B's literal
request, and the connected index is 1. -/
theorem connectToNetwork_sentinel_entry_witness :
    (connectToNetwork sSentinelB radioOnlyB).attempts.head? = some none ∧
    (connectToNetwork sSentinelB radioOnlyB).ok = true ∧
    (connectToNetwork sSentinelB radioOnlyB).state.connectedIndex = 1 ∧
    (connectToNetwork sSentinelB radioOnlyB).attempts =
      [none, some ("B", "pb")] := by
  have h := connectToNetwork_sentinel_entry sSentinelB radioOnlyB
    ⟨"", ""⟩ [⟨"B", "pb"⟩] rfl rfl rfl
  have hmain := h.2.2.1 [] (some ("B", "pb")) []
    (by simp [attemptOnce, connectWait, connectWaitFrom, radioOnlyB, sSentinelB])
    (by simp [networkDescriptor])
    (by intro x hx; simp at hx)
    (by simp [attemptOnce, connectWait, connectWaitFrom, radioOnlyB, sSentinelB])
    (by norm_num)
  exact ⟨h.1, hmain.1, by simpa using hmain.2.1, by simpa using hmain.2.2⟩

/-! ### Wait-loop characterisation -/

theorem connectWaitFrom_cases (status : Nat → WlStatus) (timeoutMs : Nat) :
    ∀ (M n : Nat), timeoutMs + 100 - 100 * n ≤ M →
      ∃ k, n ≤ k ∧
        (∀ m, n ≤ m → m < k → status m = .wlInProgress ∧ 100 * m ≤ timeoutMs) ∧
        ((status k = .wlConnected ∧
            connectWaitFrom status timeoutMs n = ⟨true, false⟩) ∨
         (status k = .wlConnectFailed ∧
            connectWaitFrom status timeoutMs n = ⟨false, false⟩) ∨
         (status k = .wlInProgress ∧ 100 * k > timeoutMs ∧
            connectWaitFrom status timeoutMs n = ⟨false, true⟩)) := by
  intro M
  induction M with
  | zero =>
    intro n hM
    have ht : 100 * n > timeoutMs := by omega
    cases hs : status n with
    | wlConnected =>
      exact ⟨n, le_refl n, fun m h1 h2 => absurd (lt_of_le_of_lt h1 h2)
        (lt_irrefl n), Or.inl ⟨hs, by rw [connectWaitFrom, if_pos hs]⟩⟩
    | wlConnectFailed =>
      exact ⟨n, le_refl n, fun m h1 h2 => absurd (lt_of_le_of_lt h1 h2)
        (lt_irrefl n), Or.inr (Or.inl ⟨hs, by
          rw [connectWaitFrom, if_neg (by simp [hs]), if_pos hs]⟩)⟩
    | wlInProgress =>
      exact ⟨n, le_refl n, fun m h1 h2 => absurd (lt_of_le_of_lt h1 h2)
        (lt_irrefl n), Or.inr (Or.inr ⟨hs, ht, by
          rw [connectWaitFrom, if_neg (by simp [hs]), if_neg (by simp [hs]),
            if_pos ht]⟩)⟩
  | succ M ih =>
    intro n hM
    cases hs : status n with
    | wlConnected =>
      exact ⟨n, le_refl n, fun m h1 h2 => absurd (lt_of_le_of_lt h1 h2)
        (lt_irrefl n), Or.inl ⟨hs, by rw [connectWaitFrom, if_pos hs]⟩⟩
    | wlConnectFailed =>
      exact ⟨n, le_refl n, fun m h1 h2 => absurd (lt_of_le_of_lt h1 h2)
        (lt_irrefl n), Or.inr (Or.inl ⟨hs, by
          rw [connectWaitFrom, if_neg (by simp [hs]), if_pos hs]⟩)⟩
    | wlInProgress =>
      by_cases ht : 100 * n > timeoutMs
      · exact ⟨n, le_refl n, fun m h1 h2 => absurd (lt_of_le_of_lt h1 h2)
          (lt_irrefl n), Or.inr (Or.inr ⟨hs, ht, by
            rw [connectWaitFrom, if_neg (by simp [hs]), if_neg (by simp [hs]),
              if_pos ht]⟩)⟩
      · obtain ⟨k, hk1, hk2, hk3⟩ := ih (n + 1) (by omega)
        refine ⟨k, by omega, ?_, ?_⟩
        · intro m h1 h2
          rcases Nat.eq_or_lt_of_le h1 with heq | hlt
          · exact heq ▸ ⟨hs, by omega⟩
          · exact hk2 m hlt h2
        · rw [connectWaitFrom, if_neg (by simp [hs]), if_neg (by simp [hs]),
            if_neg ht]
          exact hk3

/-- C6: the wait loop queries the link status at a fixed 100 ms interval; it
returns success at the first poll reporting WL_CONNECTED, failure (without
aborting) at the first poll reporting WL_CONNECT_FAILED, and once the elapsed
time exceeds the connect timeout it commands the radio to abort the in-flight
attempt (esp_wifi_disconnect) and returns failure; a failed wait is absorbed
by the iteration, which simply proceeds to the next candidate entry. -/
theorem connectWait_poll_timeout :
    (∀ (status : Nat → WlStatus) (timeoutMs : Nat),
      ∃ k, (∀ m, m < k → status m = .wlInProgress ∧ 100 * m ≤ timeoutMs) ∧
        ((status k = .wlConnected ∧
            connectWait status timeoutMs = ⟨true, false⟩) ∨
         (status k = .wlConnectFailed ∧
            connectWait status timeoutMs = ⟨false, false⟩) ∨
         (status k = .wlInProgress ∧ 100 * k > timeoutMs ∧
            connectWait status timeoutMs = ⟨false, true⟩))) ∧
    (∀ (radio : RadioLink) (t : Nat) (e : Network) (rest : List Network),
      connectWait (radio.statusTrace (networkDescriptor e)) t = ⟨false, true⟩ →
      tryList radio t (e :: rest) =
        ((tryList radio t rest).1.map (· + 1),
          networkDescriptor e :: (tryList radio t rest).2)) := by
  constructor
  · intro status timeoutMs
    obtain ⟨k, _, hk2, hk3⟩ := connectWaitFrom_cases status timeoutMs
      (timeoutMs + 100) 0 (by omega)
    exact ⟨k, fun m h2 => hk2 m (Nat.zero_le m) h2, hk3⟩
  · intro radio t e rest h
    have hx : attemptOnce radio t (networkDescriptor e) = false := by
      simp [attemptOnce, h]
    rw [tryList, if_neg (by simp [hx])]

/-- Closed instance of `connectWait_poll_timeout`: a status trace stuck at
in-progress with timeout 100 ms, and a timed-out head attempt driving the
iteration on to the remaining entries. -/
theorem connectWait_poll_timeout_witness :
    (∃ k, (∀ m, m < k → (fun _ : Nat => WlStatus.wlInProgress) m =
          .wlInProgress ∧ 100 * m ≤ 100) ∧
      (((fun _ : Nat => WlStatus.wlInProgress) k = .wlConnected ∧
          connectWait (fun _ => WlStatus.wlInProgress) 100 = ⟨true, false⟩) ∨
       ((fun _ : Nat => WlStatus.wlInProgress) k = .wlConnectFailed ∧
          connectWait (fun _ => WlStatus.wlInProgress) 100 = ⟨false, false⟩) ∨
       ((fun _ : Nat => WlStatus.wlInProgress) k = .wlInProgress ∧
          100 * k > 100 ∧
          connectWait (fun _ => WlStatus.wlInProgress) 100 = ⟨false, true⟩))) ∧
    tryList radioPreConnected 0 [⟨"A", "pa"⟩] =
      ((tryList radioPreConnected 0 []).1.map (· + 1),
        networkDescriptor ⟨"A", "pa"⟩ :: (tryList radioPreConnected 0 []).2) :=
  ⟨connectWait_poll_timeout.1 (fun _ => WlStatus.wlInProgress) 100,
    connectWait_poll_timeout.2 radioPreConnected 0 ⟨"A", "pa"⟩ []
      (by simp [connectWait, connectWaitFrom, radioPreConnected])⟩

/-! ### Startup outcome lemmas -/

theorem setDisconnected_not_connected (s : WFBState) :
    connected (setDisconnected s) = false := by
  simp [connected, setDisconnected]

theorem connectToNetwork_ok_cases (s : WFBState) (radio : RadioLink) :
    ((connectToNetwork s radio).ok = true ∧
      ((radio.initialConnected = true ∧ (connectToNetwork s radio).state = s) ∨
        connected (connectToNetwork s radio).state = true)) ∨
    ((connectToNetwork s radio).ok = false ∧
      (connectToNetwork s radio).state = setDisconnected s) := by
  rw [connectToNetwork]
  split
  · rename_i h
    exact Or.inl ⟨rfl, Or.inl ⟨h, rfl⟩⟩
  · split
    · exact Or.inr ⟨rfl, rfl⟩
    · split
      · split
        · exact Or.inl ⟨rfl, Or.inr (setConnected_connected s 0)⟩
        · split
          · exact Or.inl ⟨rfl, Or.inr (setConnected_connected s _)⟩
          · exact Or.inr ⟨rfl, rfl⟩
      · split
        · exact Or.inl ⟨rfl, Or.inr (setConnected_connected s _)⟩
        · exact Or.inr ⟨rfl, rfl⟩

theorem startupAccessPoint_cases (maxKnown : Nat) (s : WFBState)
    (portal : Portal) :
    ((startupAccessPoint maxKnown s portal).1 = true ∧
      connected (startupAccessPoint maxKnown s portal).2 = true) ∨
    ((startupAccessPoint maxKnown s portal).1 = false ∧
      (startupAccessPoint maxKnown s portal).2 = s) := by
  rw [startupAccessPoint]
  split
  · exact Or.inr ⟨rfl, rfl⟩
  · dsimp only
    split_ifs
    · exact Or.inl ⟨rfl, setConnected_connected _ _⟩
    · exact Or.inl ⟨rfl, setConnected_connected _ _⟩

/-- C2 (amended): provided the radio does not already report an established
link when `startup()` begins, `startup()` returns true exactly when
`connected()` reports true immediately afterwards. -/
theorem startup_ok_iff_connected (maxKnown : Nat) (s : WFBState)
    (radio : RadioLink) (portal : Portal)
    (hrad : radio.initialConnected = false) :
    ((startup maxKnown s radio portal).ok = true ↔
      connected (startup maxKnown s radio portal).state = true) := by
  simp only [startup]
  rcases connectToNetwork_ok_cases s radio with ⟨hok, hcase⟩ | ⟨hok, hstate⟩
  · rcases hcase with ⟨hinit, _⟩ | hconn
    · rw [hinit] at hrad
      exact absurd hrad (by simp)
    · rw [if_pos hok]
      simpa using hconn
  · rw [if_neg (by simp [hok])]
    by_cases hap :
        (connectToNetwork s radio).state.accessPointEnabled = true
    · rw [if_pos hap]
      rcases startupAccessPoint_cases maxKnown
          (connectToNetwork s radio).state portal with ⟨h1, h2⟩ | ⟨h1, h2⟩
      · simpa [h1] using h2.symm
      · have h3 : connected (startupAccessPoint maxKnown
            (connectToNetwork s radio).state portal).2 = false := by
          rw [h2, hstate]
          exact setDisconnected_not_connected s
        simp [h1, h3]
    · rw [if_neg hap]
      have h3 : connected (connectToNetwork s radio).state = false := by
        rw [hstate]
        exact setDisconnected_not_connected s
      simp [h3]

/-- C2 counterexample: when the radio already reports an established link at
entry, `_connectToNetwork` returns true without ever recording the connected
index, so `startup()` returns true while `connected()` stays false. -/
theorem startup_ok_iff_connected_counterexample :
    (startup 4 (initState 4 500 false) radioPreConnected portalNone).ok =
      true ∧
    connected
      (startup 4 (initState 4 500 false) radioPreConnected portalNone).state =
      false := by
  decide

/-- Closed instance of `startup_ok_iff_connected`: a radio that rejects every
attempt, an empty registry and no access point — startup returns false and
connected() is false. -/
theorem startup_ok_iff_connected_witness :
    radioFailAll.initialConnected = false ∧
    ((startup 4 (initState 4 500 false) radioFailAll portalNone).ok = true ↔
      connected
        (startup 4 (initState 4 500 false) radioFailAll portalNone).state =
        true) :=
  ⟨rfl, startup_ok_iff_connected 4 (initState 4 500 false) radioFailAll
    portalNone rfl⟩

/-! ### The access-point fallback at a full registry -/

theorem radioFailAll_attempt (t : Nat) (d : Option (String × String)) :
    attemptOnce radioFailAll t d = false := by
  simp [attemptOnce, connectWait, connectWaitFrom, radioFailAll]

/-- C7 (code bug): with the registry full at the `MAX_KNOWN_NETWORKS` ceiling
(4 in this instance), every attempt failing, the access point enabled, and
the portal resolving with the unknown credential ("NewNet", "secret1"),
`startup()` returns true — the portal was started with the configured AP
name/secret — but the learned name is NOT in the registry (the ignored
`addKnownNetwork` call failed) and the connected index is 3, the index of the
unrelated pre-existing last entry "D". -/
theorem startup_portal_full_registry_bug :
    (startup 4 sFullAP radioFailAll portalNewNet).ok = true ∧
    (startup 4 sFullAP radioFailAll portalNewNet).portalStarted =
      some (some "ap", some "appw") ∧
    hasKnownNetwork (startup 4 sFullAP radioFailAll portalNewNet).state
      "NewNet" = false ∧
    (startup 4 sFullAP radioFailAll portalNewNet).state.connectedIndex = 3 ∧
    numKnownNetworks (startup 4 sFullAP radioFailAll portalNewNet).state =
      4 := by
  have hkn : sFullAP.knownNetworks =
      [⟨"A", "pa"⟩, ⟨"B", "pb"⟩, ⟨"C", "pc"⟩, ⟨"D", "pd"⟩] := rfl
  have htry := tryList_all_fail radioFailAll sFullAP.connectionTimeoutMs
    [(⟨"A", "pa"⟩ : Network), ⟨"B", "pb"⟩, ⟨"C", "pc"⟩, ⟨"D", "pd"⟩]
    (fun x _ => radioFailAll_attempt sFullAP.connectionTimeoutMs x)
  have hconn : connectToNetwork sFullAP radioFailAll =
      ⟨false, setDisconnected sFullAP,
        ([⟨"A", "pa"⟩, ⟨"B", "pb"⟩, ⟨"C", "pc"⟩, ⟨"D", "pd"⟩] :
          List Network).map networkDescriptor⟩ := by
    rw [connectToNetwork, if_neg (by simp [radioFailAll]), hkn]
    dsimp only
    rw [if_neg (by decide), htry]
  have hstartup : startup 4 sFullAP radioFailAll portalNewNet =
      ⟨true, setConnected (setDisconnected sFullAP) 3,
        ([⟨"A", "pa"⟩, ⟨"B", "pb"⟩, ⟨"C", "pc"⟩, ⟨"D", "pd"⟩] :
          List Network).map networkDescriptor,
        some (some "ap", some "appw")⟩ := by
    simp only [startup]
    rw [hconn]
    decide
  refine ⟨by rw [hstartup], by rw [hstartup], ?_, ?_, ?_⟩
  · rw [hstartup]
    decide
  · rw [hstartup]
    decide
  · rw [hstartup]
    decide

end WFB
